import Mathlib

/-!
# Verification of the Echoplex attendee check-in core

Shallow embedding, in Lean 4, of the check-in / bulk-import / zone-occupancy
core of the Echoplex event-safety platform, together with theorems settling
the specification claims about it.

The CSV parsing functions are translated from the two `parseCSV`
implementations in `src/components/BulkImport.tsx`; the HTTP fallback
handlers come from `Server/Server.ts`; the surge-detection algorithm comes
from the `SurgeDetector` class of the crowd-predictor component.  The
attendee store, check-in service and zone aggregator live in a backend file
that is not part of the source tree; those definitions are modelled from the
specification (each such definition says so in its doc comment).
-/

namespace Echoplex

/-! ## Generic character-level string helpers

JavaScript string primitives (`split`, `trim`, `toLowerCase`) are embedded
as executable functions on `List Char`, wrapped into `String`. -/

/-- Embedding of `text.split(/\r?\n/)`: cut at every `"\r\n"` or `"\n"`;
a carriage return not followed by a newline stays in the line (the regex
consumes `\r` only when a `\n` follows). -/
def splitOnNewlines : List Char → List (List Char)
  | [] => [[]]
  | '\r' :: '\n' :: rest => [] :: splitOnNewlines rest
  | '\n' :: rest => [] :: splitOnNewlines rest
  | c :: rest =>
    match splitOnNewlines rest with
    | [] => [[c]]
    | l :: ls => (c :: l) :: ls

/-- Embedding of `s.split(sep)` for a single separator character. -/
def splitOnChar (sep : Char) : List Char → List (List Char)
  | [] => [[]]
  | c :: rest =>
    if c = sep then [] :: splitOnChar sep rest
    else
      match splitOnChar sep rest with
      | [] => [[c]]
      | l :: ls => (c :: l) :: ls

/-- Embedding of `s.toLowerCase()`, character by character. -/
def lowerStr (s : String) : String := String.mk (s.data.map Char.toLower)

/-- Embedding of `s.trim()`: drop whitespace from both ends. -/
def trimChars (cs : List Char) : List Char :=
  ((cs.dropWhile Char.isWhitespace).reverse.dropWhile Char.isWhitespace).reverse

/-- A line is non-blank when its trimmed content is nonempty; this is the
JavaScript truthiness test `line.trim()` used to filter lines. -/
def nonBlank (s : String) : Bool :=
  !(trimChars s.data).isEmpty

/-- The non-blank lines of the CSV text: `text.split(/\r?\n/).filter(line => line.trim())`. -/
def csvLines (text : String) : List String :=
  ((splitOnNewlines text.data).map String.mk).filter nonBlank

/-- Embedding of `line.split(',').map(v => v.trim())`. -/
def splitCommaTrim (line : String) : List String :=
  (splitOnChar ',' line.data).map (fun cs => String.mk (trimChars cs))

/-! ## Header normalization and the lenient `parseCSV`
(first implementation in `BulkImport.tsx`) -/

/-- The character-level cleaning inside `normalizeHeader`:
`raw.toLowerCase().replace(/\./g, '').replace(/[_\s]/g, '')`. -/
def normalizeHeaderChars (cs : List Char) : List Char :=
  ((cs.map Char.toLower).filter (fun c => !(c == '.'))).filter
    (fun c => !(c == '_' || c.isWhitespace))

/-- Embedding of `normalizeHeader`: lowercase, strip `.`, strip `_` and
whitespace, then map the alias `"emailid"` to `"email"`. -/
def normalizeHeader (raw : String) : String :=
  let cleaned := String.mk (normalizeHeaderChars raw.data)
  if cleaned = "emailid" then "email" else cleaned

/-- The attendee object built per data row by the lenient `parseCSV`.
A field is `none` when no header assigns it or the row is too short
(JavaScript `undefined`). -/
structure CsvRow where
  serialNo : Option String := none
  name : Option String := none
  email : Option String := none
  phone : Option String := none
  ticketId : Option String := none
  location : Option String := none
deriving Repr, DecidableEq

/-- The six logical columns of the import schema. -/
inductive LogicalField
  | serialNo
  | name
  | email
  | phone
  | ticketId
  | location
deriving DecidableEq, Repr

/-- The normalized header key that selects each logical field. -/
def keyOf : LogicalField → String
  | .serialNo => "sno"
  | .name => "name"
  | .email => "email"
  | .phone => "phoneno"
  | .ticketId => "ticketid"
  | .location => "location"

/-- Read one logical field off a row object. -/
def getField (r : CsvRow) : LogicalField → Option String
  | .serialNo => r.serialNo
  | .name => r.name
  | .email => r.email
  | .phone => r.phone
  | .ticketId => r.ticketId
  | .location => r.location

/-- One assignment of the `rawHeaders.forEach` body: dispatch the value to
the field selected by the normalized header, ignoring unknown headers. -/
def assignField (r : CsvRow) (norm : String) (v : Option String) : CsvRow :=
  if norm = "ticketid" then { r with ticketId := v }
  else if norm = "phoneno" then { r with phone := v }
  else if norm = "sno" then { r with serialNo := v }
  else if norm = "email" then { r with email := v }
  else if norm = "name" then { r with name := v }
  else if norm = "location" then { r with location := v }
  else r

/-- Build the attendee object of one data line: split the line on commas,
trim each value, and assign the value at position `i` according to the
normalized header at position `i`. -/
def parseRow (rawHeaders : List String) (line : String) : CsvRow :=
  let values := splitCommaTrim line
  rawHeaders.enum.foldl (fun r p => assignField r (normalizeHeader p.2) values[p.1]?) {}

/-- Required logical columns (after normalization), in source order. -/
def requiredKeys : List String :=
  ["sno", "name", "email", "phoneno", "ticketid", "location"]

def emptyCsvMsg : String := "CSV file is empty or invalid"

def missingColumnsMsg : String :=
  "CSV must have columns: s.no, name, email, phone no, ticketId, location"

/-- Embedding of the lenient `parseCSV` of `BulkImport.tsx`: filter blank
lines, reject files with fewer than two non-blank lines, normalize the
header row, reject if any of the six logical columns is missing, then map
every remaining data line to a row object. -/
def parseCSV (text : String) : Except String (List CsvRow) :=
  let lines := csvLines text
  if lines.length < 2 then .error emptyCsvMsg
  else
    let rawHeaders := splitCommaTrim (lines.headD "")
    let normalizedHeaders := rawHeaders.map normalizeHeader
    let missing := requiredKeys.filter (fun k => !(normalizedHeaders.contains k))
    if missing.length > 0 then .error missingColumnsMsg
    else .ok (((lines.drop 1).filter nonBlank).map (parseRow rawHeaders))

/-! ## The older three-required-column `parseCSV`
(second implementation in `BulkImport.tsx`) -/

/-- JavaScript object assignment `obj[k] = v`: update the value in place
when the key exists, otherwise append the binding. -/
def objInsert (obj : List (String × Option String)) (k : String) (v : Option String) :
    List (String × Option String) :=
  if obj.any (fun p => p.1 == k) then obj.map (fun p => if p.1 == k then (k, v) else p)
  else obj ++ [(k, v)]

/-- Row objects of the older `parseCSV`: every lowercased header becomes a
key verbatim, except `"ticketid"` which is renamed to `"ticketId"`. -/
def parseRowOld (headers : List String) (line : String) : List (String × Option String) :=
  let values := splitCommaTrim line
  headers.enum.foldl
    (fun obj p =>
      if p.2 = "ticketid" then objInsert obj "ticketId" values[p.1]?
      else objInsert obj p.2 values[p.1]?)
    []

def oldMissingColumnsMsg : String := "CSV must have columns: name, email, ticketId"

/-- Embedding of the older `parseCSV`: split on `'\n'` only, require the
lowercased trimmed headers to include `name`, `email` and `ticketid`, and
keep all other columns under their lowercased header names. -/
def parseCSVOld (text : String) : Except String (List (List (String × Option String))) :=
  let lines := ((splitOnChar '\n' text.data).map String.mk).filter nonBlank
  if lines.length < 2 then .error emptyCsvMsg
  else
    let headers := (splitCommaTrim (lines.headD "")).map lowerStr
    if !(headers.contains "name") || !(headers.contains "email") ||
        !(headers.contains "ticketid") then .error oldMissingColumnsMsg
    else .ok (((lines.drop 1).filter nonBlank).map (parseRowOld headers))

/-! ## HTTP fallback handlers (`Server/Server.ts`)

A response body is projected onto the two observables the claims are about:
the optional `success` flag and the optional `message` string.  The health
check body `{status, timestamp, service}` carries neither. -/

inductive HttpMethod
  | get
  | post
  | delete
deriving DecidableEq, Repr

structure HttpRequest where
  method : HttpMethod
  path : String
deriving DecidableEq, Repr

structure ResponseBody where
  success : Option Bool
  message : Option String
deriving DecidableEq, Repr

/-- The 404 fallback body: `{success: false, message: 'Endpoint not found'}`. -/
def notFoundBody : ResponseBody := { success := some false, message := some "Endpoint not found" }

/-- The error-handler body: `{success: false, message: 'Internal server error'}`. -/
def internalErrorBody : ResponseBody :=
  { success := some false, message := some "Internal server error" }

/-- The `/health` body `{status: 'healthy', timestamp, service}` projected
onto the observables: it has no `success` flag and no `message`. -/
def healthBody : ResponseBody := { success := none, message := none }

/-- Modelled from the spec: the attendee route handlers live in
`Server/routes/attendee.routes.ts`, which is not part of the source tree;
per the external-interface section every attendee endpoint answers with a
body of the shape `{success, message, ...}`, so a handled attendee request
is modelled by its outcome flag and message. -/
def attendeeRouteBody (outcome : Bool × String) : ResponseBody :=
  { success := some outcome.1, message := some outcome.2 }

/-- The middleware chain of `Server.ts`: an unhandled error reaches the
error handler; requests under `/api/attendees` reach the attendee router;
`GET /health` reaches the health check; everything else falls through to
the 404 handler. -/
def serverRespond (req : HttpRequest) (outcome : Bool × String) (handlerThrows : Bool) :
    ResponseBody :=
  if handlerThrows then internalErrorBody
  else if req.path.startsWith "/api/attendees" then attendeeRouteBody outcome
  else if req.method = .get ∧ req.path = "/health" then healthBody
  else notFoundBody

/-! ## The attendee check-in core

The attendee store, the check-in service and the zone aggregator are in the
backend controller that is not under the source tree; the definitions below
are modelled from the specification (data model, check-in state machine
table, zone aggregation and bulk-import pipeline sections). -/

/-- Attendee lifecycle status. -/
inductive AStatus
  | not_checked_in
  | checked_in
  | checked_out
deriving DecidableEq, Repr

/-- Modelled from the spec: the `Attendee` record of the data-model section.
Timestamps are abstract `Nat` instants; an empty `location` string stands
for an absent zone label. -/
structure Attendee where
  id : Nat
  eventId : String
  ticketId : String
  name : String
  email : String
  phone : String
  serialNo : String
  status : AStatus
  checkInTime : Option Nat
  checkOutTime : Option Nat
  location : String
deriving DecidableEq, Repr

/-- The default zone that `bulkCheckIn` falls back to when an attendee has
no recorded location. -/
def defaultZone : String := "Main Entrance"

/-- Modelled from the spec: the state effect of `checkIn(ticketId, eventId,
location)` on one record — requires the record to exist and not already be
`checked_in` (a double check-in is a reported no-op error); on success
status becomes `checked_in`, `checkInTime` is stamped, `checkOutTime`
cleared and the location overwritten. -/
def checkInUpd (tid eid loc : String) (now : Nat) (a : Attendee) : Attendee :=
  if a.eventId = eid ∧ a.ticketId = tid ∧ a.status ≠ .checked_in then
    { a with status := .checked_in, checkInTime := some now, checkOutTime := none,
             location := loc }
  else a

/-- Modelled from the spec: the state effect of `checkOut(ticketId,
eventId)` on one record — only a currently `checked_in` record transitions
to `checked_out` and gets its `checkOutTime` stamped; otherwise the call
fails (`NotFound` / `InvalidState`) without mutation. -/
def checkOutUpd (tid eid : String) (now : Nat) (a : Attendee) : Attendee :=
  if a.eventId = eid ∧ a.ticketId = tid ∧ a.status = .checked_in then
    { a with status := .checked_out, checkOutTime := some now }
  else a

/-- Modelled from the spec: the per-record effect of `bulkCheckIn(eventId)` —
every attendee of the event currently `not_checked_in` or `checked_out`
transitions to `checked_in` at the shared instant `now`, using its own
recorded location with a default-zone fallback; already `checked_in`
attendees are left unchanged. -/
def bulkCheckInUpd (eid : String) (now : Nat) (a : Attendee) : Attendee :=
  if a.eventId = eid ∧ (a.status = .not_checked_in ∨ a.status = .checked_out) then
    { a with status := .checked_in, checkInTime := some now, checkOutTime := none,
             location := if a.location = "" then defaultZone else a.location }
  else a

/-- One CheckInService operation. -/
inductive CheckInOp
  | checkIn (ticketId eventId loc : String) (now : Nat)
  | checkOut (ticketId eventId : String) (now : Nat)
  | bulkCheckIn (eventId : String) (now : Nat)
deriving DecidableEq, Repr

/-- Modelled from the spec: the state effect of one CheckInService
operation on the attendee store (a list of records; results and error
reports carry no state and are omitted). -/
def applyOp (st : List Attendee) (op : CheckInOp) : List Attendee :=
  match op with
  | .checkIn tid eid loc now => st.map (checkInUpd tid eid loc now)
  | .checkOut tid eid now => st.map (checkOutUpd tid eid now)
  | .bulkCheckIn eid now => st.map (bulkCheckInUpd eid now)

/-- The attendees of an event currently checked in. -/
def checkedInAttendees (st : List Attendee) (eid : String) : List Attendee :=
  st.filter (fun a => decide (a.eventId = eid ∧ a.status = .checked_in))

/-- The zone-occupancy answer: total and per-zone counts. -/
structure ZoneStats where
  totalCheckedIn : Nat
  zones : List (String × Nat)
deriving DecidableEq, Repr

/-- Modelled from the spec: `zoneStats(eventId)` scans the attendees of the
event with `status = checked_in` and groups them by `location`;
`totalCheckedIn` is the number of such attendees. -/
def zoneStats (st : List Attendee) (eid : String) : ZoneStats :=
  let cs := checkedInAttendees st eid
  { totalCheckedIn := cs.length
    zones := ((cs.map (·.location)).dedup).map
      (fun l => (l, cs.countP (fun a => a.location == l))) }

/-! ## The bulk-import pipeline (modelled from the spec) -/

/-- Modelled from the spec: `AttendeeStore.upsert` — merge the row's
non-null fields into the existing record of the same `(eventId, ticketId)`
(never touching `id`, `ticketId` or the check-in state), or create a fresh
`not_checked_in` record when the ticket is new to the event. -/
def mergeFields (a : Attendee) (r : CsvRow) : Attendee :=
  { a with name := r.name.getD a.name, email := r.email.getD a.email,
           phone := r.phone.getD a.phone, serialNo := r.serialNo.getD a.serialNo,
           location := r.location.getD a.location }

/-- Modelled from the spec: the fresh record created by `upsert` for an
unseen ticket, with initial status `not_checked_in` and null timestamps. -/
def newAttendee (eid : String) (r : CsvRow) (id : Nat) : Attendee :=
  { id := id, eventId := eid, ticketId := r.ticketId.getD "",
    name := r.name.getD "", email := r.email.getD "", phone := r.phone.getD "",
    serialNo := r.serialNo.getD "", status := .not_checked_in,
    checkInTime := none, checkOutTime := none, location := r.location.getD "" }

/-- Modelled from the spec: `upsert(eventId, ticketId, fields)` on the
store; the fresh identifier is generated from the store size. -/
def upsert (eid : String) (r : CsvRow) (st : List Attendee) : List Attendee :=
  if st.any (fun a => decide (a.eventId = eid ∧ a.ticketId = r.ticketId.getD "")) then
    st.map (fun a =>
      if a.eventId = eid ∧ a.ticketId = r.ticketId.getD "" then mergeFields a r else a)
  else st ++ [newAttendee eid r st.length]

/-- A row passes per-row validation when both `name` and `ticketId` are
present and non-empty. -/
def rowValid (r : CsvRow) : Bool :=
  !(r.name.getD "").isEmpty && !(r.ticketId.getD "").isEmpty

/-- The human-readable reason attached to a failed record. -/
def rowFailReason (r : CsvRow) : String :=
  if (r.name.getD "").isEmpty then "Missing required field: name"
  else "Missing required field: ticketId"

/-- The structural result of a bulk import. -/
structure ImportResult where
  imported : Nat
  failed : Nat
  failedRecords : List (CsvRow × String)
deriving DecidableEq, Repr

/-- One iteration of the bulk-import loop: a valid row is counted and
upserted, an invalid row is collected as a failed record with its reason
and leaves the store untouched. -/
def importStep (eid : String) (acc : ImportResult × List Attendee) (r : CsvRow) :
    ImportResult × List Attendee :=
  if rowValid r then
    ({ acc.1 with imported := acc.1.imported + 1 }, upsert eid r acc.2)
  else
    ({ acc.1 with failed := acc.1.failed + 1,
                  failedRecords := acc.1.failedRecords ++ [(r, rowFailReason r)] },
     acc.2)

/-- Modelled from the spec: the per-row validation and upsert loop of the
bulk-import pipeline — each row requires non-empty `name` and `ticketId`
and is then upserted; failures are collected with the offending row and a
reason, and never abort the batch. -/
def bulkImport (eid : String) (rows : List CsvRow) (st : List Attendee) :
    ImportResult × List Attendee :=
  rows.foldl (importStep eid) ({ imported := 0, failed := 0, failedRecords := [] }, st)

/-! ## The surge detector (crowd-predictor component)

`SurgeDetector.detect` and `SurgeDetector.getRiskLevel`, with the
JavaScript number arithmetic embedded over `ℚ`. -/

/-- The arithmetic mean used by the surge detector windows. -/
def avg (l : List ℚ) : ℚ := l.sum / (l.length : ℚ)

/-- Embedding of `data.slice(-3)`: the last three entries. -/
def recentWindow (data : List ℚ) : List ℚ := data.drop (data.length - 3)

/-- Embedding of `data.slice(-6, -3)`: the three entries before the last
three (fewer when the series is short). -/
def olderWindow (data : List ℚ) : List ℚ :=
  (data.take (data.length - 3)).drop (data.length - 6)

/-- The threshold the component instantiates `SurgeDetector` with. -/
def surgeThreshold : ℚ := 3 / 2

/-- Embedding of `SurgeDetector.detect`: a surge is a recent-window average
exceeding the older-window average times the threshold. -/
def surgeDetect (threshold : ℚ) (data : List ℚ) : Bool :=
  if data.length < 3 then false
  else if (olderWindow data).isEmpty then false
  else decide (avg (recentWindow data) > avg (olderWindow data) * threshold)

inductive RiskLevel
  | low
  | medium
  | high
deriving DecidableEq, Repr

/-- Embedding of `SurgeDetector.getRiskLevel`: the ratio of the window
averages, with the `olderAvg || 1` guard, cut at 1.8 and 1.3. -/
def getRiskLevel (data : List ℚ) : RiskLevel :=
  if data.length < 3 then .low
  else if (olderWindow data).isEmpty then .low
  else
    let recentAvg := avg (recentWindow data)
    let olderAvg := avg (olderWindow data)
    let ratio := recentAvg / (if olderAvg = 0 then 1 else olderAvg)
    if ratio > 9 / 5 then .high
    else if ratio > 13 / 10 then .medium
    else .low

/-! # Theorems -/

/-- Helper: the short-input guard of `parseCSV`. -/
theorem parseCSV_short_aux (text : String) (h : (csvLines text).length < 2) :
    parseCSV text = .error emptyCsvMsg := by
  simp only [parseCSV]
  rw [if_pos h]

/-- C5: a CSV text with fewer than two non-blank lines (for instance a file
with only a header row) is rejected with the error
`"CSV file is empty or invalid"`; no attendee rows are produced. -/
theorem parseCSV_too_few_lines (text : String)
    (h : (csvLines text).length < 2) :
    parseCSV text = .error emptyCsvMsg :=
  parseCSV_short_aux text h

/-- Witness for `parseCSV_too_few_lines`: a file holding only the header
row satisfies the hypothesis and is rejected. -/
theorem parseCSV_too_few_lines_witness :
    (csvLines "S. No.,Name,email_ID,Phone no,Ticket_Id,Location").length < 2 ∧
      parseCSV "S. No.,Name,email_ID,Phone no,Ticket_Id,Location" = .error emptyCsvMsg :=
  ⟨by decide, parseCSV_too_few_lines _ (by decide)⟩

/-- C3: when one of the six logical columns is missing from the normalized
header row, `parseCSV` throws (so no attendee row is produced); when the
file moreover has a data line, the error is the descriptive
required-columns message. -/
theorem parseCSV_missing_column_rejected (text : String)
    (hmiss : ∃ k ∈ requiredKeys,
      ((splitCommaTrim ((csvLines text).headD "")).map normalizeHeader).contains k = false) :
    (∃ e, parseCSV text = .error e) ∧
      (2 ≤ (csvLines text).length → parseCSV text = .error missingColumnsMsg) := by
  obtain ⟨k, hk, hnc⟩ := hmiss
  by_cases hlen : (csvLines text).length < 2
  · refine ⟨⟨emptyCsvMsg, parseCSV_short_aux text hlen⟩, fun h2 => ?_⟩
    omega
  · have hmem : k ∈ requiredKeys.filter
        (fun k => !(((splitCommaTrim ((csvLines text).headD "")).map normalizeHeader).contains k)) :=
      List.mem_filter.mpr ⟨hk, by rw [hnc]; rfl⟩
    have hpos : 0 < (requiredKeys.filter
        (fun k => !(((splitCommaTrim ((csvLines text).headD "")).map normalizeHeader).contains k))).length :=
      List.length_pos.mpr (List.ne_nil_of_mem hmem)
    have herr : parseCSV text = .error missingColumnsMsg := by
      simp only [parseCSV]
      rw [if_neg hlen, if_pos hpos]
    exact ⟨⟨missingColumnsMsg, herr⟩, fun _ => herr⟩

/-- Witness for `parseCSV_missing_column_rejected`: a two-line CSV whose
headers lack the serial-number column is rejected with the descriptive
message. -/
theorem parseCSV_missing_column_rejected_witness :
    (∃ k ∈ requiredKeys,
      ((splitCommaTrim ((csvLines "name,email\nfoo,bar").headD "")).map normalizeHeader).contains k
        = false) ∧
      parseCSV "name,email\nfoo,bar" = .error missingColumnsMsg := by
  have h : ∃ k ∈ requiredKeys,
      ((splitCommaTrim ((csvLines "name,email\nfoo,bar").headD "")).map normalizeHeader).contains k
        = false := ⟨"sno", by decide, by decide⟩
  exact ⟨h, (parseCSV_missing_column_rejected _ h).2 (by decide)⟩

/-- C4: `normalizeHeader` leaves no `.`, `_` or whitespace in any header;
the headers `S. No.,Name,email_ID,Phone no,Ticket_Id,Location` normalize
exactly to the six logical columns; and a CSV with these headers and one
data row parses into one fully-populated attendee row. -/
theorem normalizeHeader_spec :
    (∀ raw : String,
      ((normalizeHeader raw).data.all
        (fun c => !(c == '.' || c == '_' || c.isWhitespace))) = true) ∧
      List.map normalizeHeader ["S. No.", "Name", "email_ID", "Phone no", "Ticket_Id", "Location"]
        = requiredKeys ∧
      parseCSV "S. No.,Name,email_ID,Phone no,Ticket_Id,Location\n1,Anbreen,a@x.com,999,TKT-1,Hall A"
        = .ok [{ serialNo := some "1", name := some "Anbreen", email := some "a@x.com",
                 phone := some "999", ticketId := some "TKT-1", location := some "Hall A" }] := by
  refine ⟨?_, by decide, by rfl⟩
  intro raw
  simp only [normalizeHeader]
  split
  · decide
  · rw [List.all_eq_true]
    intro c hc
    simp only [normalizeHeaderChars, List.mem_filter] at hc
    obtain ⟨⟨-, h1⟩, h2⟩ := hc
    simp only [Bool.not_eq_eq_eq_not, Bool.not_true, Bool.or_eq_false_iff] at h1 h2 ⊢
    exact ⟨⟨h1, h2.1⟩, h2.2⟩

/-- C9 counterexample: the two `parseCSV` implementations are not
equivalent — on the three-column CSV `name,email,ticketId` with one data
row, the older implementation succeeds while the lenient one throws. -/
theorem parseCSV_versions_differ :
    (parseCSVOld "name,email,ticketId\nAnb,a@x.com,TKT-1").isOk = true ∧
      (parseCSV "name,email,ticketId\nAnb,a@x.com,TKT-1").isOk = false := ⟨rfl, rfl⟩

/-- C9 amended: the two implementations are not equivalent; the older
three-required-column version accepts a `name,email,ticketId` CSV and
returns its row, while the lenient six-column version rejects the same text
for missing columns. -/
theorem parseCSV_versions_not_equivalent :
    parseCSVOld "name,email,ticketId\nAnb,a@x.com,TKT-1"
        = .ok [[("name", some "Anb"), ("email", some "a@x.com"), ("ticketId", some "TKT-1")]] ∧
      parseCSV "name,email,ticketId\nAnb,a@x.com,TKT-1" = .error missingColumnsMsg := ⟨rfl, rfl⟩

/-- C8 counterexample: the health-check endpoint answers with a body that
carries no `success` flag at all, so not every response carries an explicit
`success` boolean. -/
theorem health_response_lacks_success :
    (serverRespond ⟨.get, "/health"⟩ (true, "ok") false).success = none := rfl

/-- C8 amended: apart from the health check, every response carries an
explicit `success` boolean: the `success` field is absent exactly on the
health-check response, an unknown endpoint gets
`{success: false, message: 'Endpoint not found'}`, and an unhandled error
gets `{success: false, message: 'Internal server error'}`. -/
theorem server_success_flag (req : HttpRequest) (outcome : Bool × String) (thr : Bool) :
    ((serverRespond req outcome thr).success = none ↔
        thr = false ∧ req.path.startsWith "/api/attendees" = false ∧
          req.method = .get ∧ req.path = "/health") ∧
      (thr = true → serverRespond req outcome thr = internalErrorBody) ∧
      (thr = false → req.path.startsWith "/api/attendees" = false →
        ¬(req.method = .get ∧ req.path = "/health") →
        serverRespond req outcome thr = notFoundBody) := by
  unfold serverRespond
  split_ifs with h1 h2 h3 <;>
    simp_all [internalErrorBody, notFoundBody, healthBody, attendeeRouteBody]

/-- Witness for `server_success_flag`: an unknown endpoint receives the
404 body `{success: false, message: 'Endpoint not found'}`. -/
theorem server_success_flag_witness :
    serverRespond ⟨.post, "/nope"⟩ (true, "x") false = notFoundBody :=
  (server_success_flag ⟨.post, "/nope"⟩ (true, "x") false).2.2 rfl (by decide) (by decide)

/-- Helper: the empty row object has every logical field absent. -/
theorem getField_default (f : LogicalField) : getField {} f = none := by
  cases f <;> rfl

/-- Helper: one `assignField` step writes exactly the field whose key is the
normalized header, and leaves every other field unchanged. -/
theorem getField_assignField (r : CsvRow) (k : String) (v : Option String) (f : LogicalField) :
    getField (assignField r k v) f = if k = keyOf f then v else getField r f := by
  cases f <;> simp only [assignField, getField, keyOf] <;> split_ifs <;> simp_all

/-- Helper: the assignment loop of `parseRow` gives each logical field the
value at the position of the last header that normalizes to its key. -/
theorem parseRow_getField (hs : List String) (line : String) (f : LogicalField) :
    getField (parseRow hs line) f =
      (match (hs.enum.filter (fun p => normalizeHeader p.2 == keyOf f)).getLast? with
       | some p => (splitCommaTrim line)[p.1]?
       | none => none) := by
  have main : ∀ (ps : List (Nat × String)) (r : CsvRow),
      getField
          (ps.foldl (fun r p => assignField r (normalizeHeader p.2) (splitCommaTrim line)[p.1]?) r)
          f =
        (match (ps.filter (fun p => normalizeHeader p.2 == keyOf f)).getLast? with
         | some p => (splitCommaTrim line)[p.1]?
         | none => getField r f) := by
    intro ps
    induction ps using List.reverseRecOn with
    | nil => intro r; simp
    | append_singleton ps p ih =>
      intro r
      rw [List.foldl_append, List.foldl_cons, List.foldl_nil, getField_assignField,
        List.filter_append]
      by_cases hp : normalizeHeader p.2 = keyOf f
      · rw [if_pos hp]
        have : (List.filter (fun p => normalizeHeader p.2 == keyOf f) [p]) = [p] := by
          simp [hp]
        rw [this, List.getLast?_concat]
      · rw [if_neg hp, ih]
        have : (List.filter (fun p => normalizeHeader p.2 == keyOf f) [p]) = [] := by
          simp [hp]
        rw [this, List.append_nil]
  rw [parseRow, main hs.enum {}]
  cases hlast : (hs.enum.filter (fun p => normalizeHeader p.2 == keyOf f)).getLast? <;>
    simp [getField_default]

/-- Helper: the data lines of a parsed CSV are already non-blank, so the
inner blank-line skip removes nothing. -/
theorem drop_csvLines_nonBlank (text : String) :
    ((csvLines text).drop 1).filter nonBlank = (csvLines text).drop 1 := by
  apply List.filter_eq_self.mpr
  intro a ha
  have : a ∈ csvLines text := List.drop_subset _ _ ha
  exact (List.mem_filter.mp this).2

/-- Helper: the success branch of `parseCSV`. -/
theorem parseCSV_ok_aux (text : String) (hlen : ¬(csvLines text).length < 2)
    (hall : (requiredKeys.filter
      (fun k => !(((splitCommaTrim ((csvLines text).headD "")).map normalizeHeader).contains k))).length
        = 0) :
    parseCSV text =
      .ok (((csvLines text).drop 1).map (parseRow (splitCommaTrim ((csvLines text).headD "")))) := by
  simp only [parseCSV]
  rw [if_neg hlen, if_neg (by omega), drop_csvLines_nonBlank]

/-- C6: with all six logical columns present, `parseCSV` returns exactly
one row object per non-blank data line (blank lines are filtered out up
front, so they yield no row and no error), and each logical field of a row
receives the trimmed comma-split value at the position of the (last) header
normalizing to its key — `none` when no header maps to it or the line is
too short. -/
theorem parseCSV_row_mapping :
    (∀ text : String, 2 ≤ (csvLines text).length →
      (∀ k ∈ requiredKeys,
        ((splitCommaTrim ((csvLines text).headD "")).map normalizeHeader).contains k = true) →
      parseCSV text =
        .ok (((csvLines text).drop 1).map
          (parseRow (splitCommaTrim ((csvLines text).headD ""))))) ∧
      (∀ (hs : List String) (line : String) (f : LogicalField),
        getField (parseRow hs line) f =
          (match (hs.enum.filter (fun p => normalizeHeader p.2 == keyOf f)).getLast? with
           | some p => (splitCommaTrim line)[p.1]?
           | none => none)) := by
  constructor
  · intro text h2 hall
    apply parseCSV_ok_aux text (by omega)
    have : (requiredKeys.filter
        (fun k => !(((splitCommaTrim ((csvLines text).headD "")).map normalizeHeader).contains k)))
        = [] := by
      apply List.filter_eq_nil_iff.mpr
      intro k hk
      rw [hall k hk]
      decide
    rw [this]
    rfl
  · exact parseRow_getField

/-- Witness for `parseCSV_row_mapping`: a two-line six-column CSV parses
into the row built positionally from its single data line. -/
theorem parseCSV_row_mapping_witness :
    2 ≤ (csvLines "S No,Name,Email,Phone No,Ticket Id,Location\nA, B ,C,D,E,F").length ∧
      parseCSV "S No,Name,Email,Phone No,Ticket Id,Location\nA, B ,C,D,E,F" =
        .ok (((csvLines "S No,Name,Email,Phone No,Ticket Id,Location\nA, B ,C,D,E,F").drop 1).map
          (parseRow (splitCommaTrim
            ((csvLines "S No,Name,Email,Phone No,Ticket Id,Location\nA, B ,C,D,E,F").headD "")))) :=
  ⟨by decide, parseCSV_row_mapping.1 _ (by decide) (by decide)⟩

/-- Helper: closed form of the bulk-import loop from any accumulator. -/
theorem bulkImport_loop (eid : String) (rows : List CsvRow) (acc : ImportResult × List Attendee) :
    rows.foldl (importStep eid) acc =
      ({ imported := acc.1.imported + (rows.filter rowValid).length,
         failed := acc.1.failed + (rows.filter (fun r => !rowValid r)).length,
         failedRecords := acc.1.failedRecords ++
           (rows.filter (fun r => !rowValid r)).map (fun r => (r, rowFailReason r)) },
       (rows.filter rowValid).foldl (fun s r => upsert eid r s) acc.2) := by
  induction rows generalizing acc with
  | nil => simp
  | cons r rows ih =>
    rw [List.foldl_cons, ih]
    by_cases h : rowValid r = true <;>
      simp [importStep, h, List.filter_cons, Nat.add_assoc, Nat.add_comm, Nat.add_left_comm]

/-- C7: the bulk-import pipeline validates each row independently — rows
with a missing `name` or `ticketId` are collected as failed records
carrying the row and a reason and are not upserted, every valid row is
upserted into the store, and a malformed row never aborts the batch (the
counts and the final store depend only on the valid rows). -/
theorem bulkImport_independent_rows (eid : String) (rows : List CsvRow) (st : List Attendee) :
    (bulkImport eid rows st).1.imported = (rows.filter rowValid).length ∧
      (bulkImport eid rows st).1.failed = (rows.filter (fun r => !rowValid r)).length ∧
      (bulkImport eid rows st).1.failedRecords
        = (rows.filter (fun r => !rowValid r)).map (fun r => (r, rowFailReason r)) ∧
      (bulkImport eid rows st).2
        = (rows.filter rowValid).foldl (fun s r => upsert eid r s) st := by
  rw [bulkImport, bulkImport_loop]
  exact ⟨by simp, by simp, by simp, rfl⟩

/-- C10 counterexample: on the occupancy series `[0, 0, 0, 1, 1, 1]` the
surge detector fires (the recent average 1 exceeds `0 * 1.5`), yet the risk
level is `low` because the `olderAvg || 1` guard replaces the zero older
average by 1, giving ratio 1. -/
theorem surge_detected_risk_low :
    surgeDetect surgeThreshold [0, 0, 0, 1, 1, 1] = true ∧
      getRiskLevel [0, 0, 0, 1, 1, 1] = .low := by
  constructor <;>
    norm_num [surgeDetect, surgeThreshold, getRiskLevel, recentWindow, olderWindow, avg]

/-- C10 amended: for a series of nonnegative occupancy counts whose
older-window average is nonzero, a detected surge implies a risk level of
`medium` or `high`, never `low`. -/
theorem surge_implies_elevated_risk (data : List ℚ)
    (hnn : ∀ x ∈ data, (0 : ℚ) ≤ x) (h0 : avg (olderWindow data) ≠ 0)
    (hdet : surgeDetect surgeThreshold data = true) :
    getRiskLevel data ≠ .low := by
  simp only [surgeDetect] at hdet
  by_cases hl : data.length < 3
  · simp [hl] at hdet
  by_cases he : (olderWindow data).isEmpty
  · simp [hl, he] at hdet
  rw [if_neg hl, if_neg he, decide_eq_true_eq] at hdet
  · have hsub : ∀ x ∈ olderWindow data, (0 : ℚ) ≤ x := by
      intro x hx
      exact hnn x (List.take_subset _ _ (List.drop_subset _ _ hx))
    have holder : 0 < avg (olderWindow data) := by
      refine lt_of_le_of_ne ?_ (Ne.symm h0)
      exact div_nonneg (List.sum_nonneg hsub) (by positivity)
    have hratio : 3 / 2 < avg (recentWindow data) / avg (olderWindow data) := by
      rw [lt_div_iff₀ holder]
      unfold surgeThreshold at hdet
      linarith
    simp only [getRiskLevel]
    rw [if_neg hl, if_neg he, if_neg h0]
    split_ifs with hhigh hmed
    · simp
    · simp
    · exfalso
      rw [not_lt] at hmed
      linarith

/-- Witness for `surge_implies_elevated_risk`: on `[10,10,10,20,20,20]` all
hypotheses hold and the risk level is not `low`. -/
theorem surge_implies_elevated_risk_witness :
    (∀ x ∈ ([10, 10, 10, 20, 20, 20] : List ℚ), (0 : ℚ) ≤ x) ∧
      avg (olderWindow [10, 10, 10, 20, 20, 20]) ≠ 0 ∧
      surgeDetect surgeThreshold [10, 10, 10, 20, 20, 20] = true ∧
      getRiskLevel [10, 10, 10, 20, 20, 20] ≠ .low := by
  have h1 : ∀ x ∈ ([10, 10, 10, 20, 20, 20] : List ℚ), (0 : ℚ) ≤ x := by norm_num
  have h2 : avg (olderWindow [10, 10, 10, 20, 20, 20]) ≠ 0 := by
    norm_num [avg, olderWindow]
  have h3 : surgeDetect surgeThreshold [10, 10, 10, 20, 20, 20] = true := by
    norm_num [surgeDetect, surgeThreshold, recentWindow, olderWindow, avg]
  exact ⟨h1, h2, h3, surge_implies_elevated_risk _ h1 h2 h3⟩

/-- The allowed moves of the per-attendee status machine: stay put, or
follow one of the three specified edges. -/
def statusEdge (s s' : AStatus) : Prop :=
  s' = s ∨ (s = .not_checked_in ∧ s' = .checked_in) ∨
    (s = .checked_in ∧ s' = .checked_out) ∨ (s = .checked_out ∧ s' = .checked_in)

/-- Two successive store states are related when they hold the same
attendees positionally and each attendee's status moved along an allowed
edge (or stayed). -/
def storeStep (st st' : List Attendee) : Prop :=
  st'.length = st.length ∧
    ∀ (i : Nat) (h : i < st.length) (h' : i < st'.length),
      statusEdge (st.get ⟨i, h⟩).status (st'.get ⟨i, h'⟩).status

/-- Helper: a check-in moves a record along an allowed edge. -/
theorem statusEdge_checkInUpd (tid eid loc : String) (now : Nat) (a : Attendee) :
    statusEdge a.status (checkInUpd tid eid loc now a).status := by
  unfold checkInUpd
  by_cases h : a.eventId = eid ∧ a.ticketId = tid ∧ a.status ≠ .checked_in
  · rw [if_pos h]
    have hs := h.2.2
    unfold statusEdge
    cases hst : a.status with
    | not_checked_in => exact Or.inr (Or.inl ⟨rfl, rfl⟩)
    | checked_in => exact absurd hst hs
    | checked_out => exact Or.inr (Or.inr (Or.inr ⟨rfl, rfl⟩))
  · rw [if_neg h]
    exact Or.inl rfl

/-- Helper: a check-out moves a record along an allowed edge. -/
theorem statusEdge_checkOutUpd (tid eid : String) (now : Nat) (a : Attendee) :
    statusEdge a.status (checkOutUpd tid eid now a).status := by
  unfold checkOutUpd
  by_cases h : a.eventId = eid ∧ a.ticketId = tid ∧ a.status = .checked_in
  · rw [if_pos h]
    exact Or.inr (Or.inr (Or.inl ⟨h.2.2, rfl⟩))
  · rw [if_neg h]
    exact Or.inl rfl

/-- Helper: a bulk check-in moves a record along an allowed edge. -/
theorem statusEdge_bulkCheckInUpd (eid : String) (now : Nat) (a : Attendee) :
    statusEdge a.status (bulkCheckInUpd eid now a).status := by
  unfold bulkCheckInUpd
  by_cases h : a.eventId = eid ∧ (a.status = .not_checked_in ∨ a.status = .checked_out)
  · rw [if_pos h]
    rcases h.2 with hs | hs
    · exact Or.inr (Or.inl ⟨hs, rfl⟩)
    · exact Or.inr (Or.inr (Or.inr ⟨hs, rfl⟩))
  · rw [if_neg h]
    exact Or.inl rfl

/-- Helper: every CheckInService operation is a `storeStep`. -/
theorem applyOp_storeStep (st : List Attendee) (op : CheckInOp) :
    storeStep st (applyOp st op) := by
  cases op with
  | checkIn tid eid loc now =>
    refine ⟨by simp [applyOp], fun i h h' => ?_⟩
    simp only [applyOp] at h' ⊢
    rw [List.get_map]
    exact statusEdge_checkInUpd _ _ _ _ _
  | checkOut tid eid now =>
    refine ⟨by simp [applyOp], fun i h h' => ?_⟩
    simp only [applyOp] at h' ⊢
    rw [List.get_map]
    exact statusEdge_checkOutUpd _ _ _ _
  | bulkCheckIn eid now =>
    refine ⟨by simp [applyOp], fun i h h' => ?_⟩
    simp only [applyOp] at h' ⊢
    rw [List.get_map]
    exact statusEdge_bulkCheckInUpd _ _ _

/-- Helper: a scan whose every step satisfies `R` yields an `R`-chain. -/
theorem chain'_scanl {α β : Type} {R : β → β → Prop} {f : β → α → β}
    (hR : ∀ (b : β) (a : α), R b (f b a)) (b : β) (l : List α) :
    List.Chain' R (List.scanl f b l) := by
  induction l generalizing b with
  | nil => simp
  | cons a l ih =>
    rw [List.scanl_cons]
    refine List.chain'_cons'.mpr ⟨?_, ih (f b a)⟩
    intro y hy
    cases l <;> simp [List.scanl] at hy <;> rw [← hy] <;> exact hR b a

/-- C1: starting from a store whose attendees are all `not_checked_in`,
every sequence of CheckInService operations (check-in, check-out, bulk
check-in) moves each attendee's status only along the edges
`not_checked_in → checked_in`, `checked_in → checked_out` and
`checked_out → checked_in` (or leaves it unchanged); every pair of
successive states in the trace is a `storeStep`. -/
theorem checkin_status_machine (st : List Attendee)
    (hinit : ∀ a ∈ st, a.status = .not_checked_in) (ops : List CheckInOp) :
    List.Chain' storeStep (List.scanl applyOp st ops) :=
  chain'_scanl applyOp_storeStep st ops

/-- Witness for `checkin_status_machine`: a one-attendee store, freshly
imported, checked in and out again. -/
theorem checkin_status_machine_witness :
    (∀ a ∈ [({ id := 0, eventId := "EVT-2024-001", ticketId := "TKT-1", name := "Anbreen",
               email := "", phone := "", serialNo := "1", status := .not_checked_in,
               checkInTime := none, checkOutTime := none, location := "Hall A" } : Attendee)],
        a.status = .not_checked_in) ∧
      List.Chain' storeStep
        (List.scanl applyOp
          [({ id := 0, eventId := "EVT-2024-001", ticketId := "TKT-1", name := "Anbreen",
              email := "", phone := "", serialNo := "1", status := .not_checked_in,
              checkInTime := none, checkOutTime := none, location := "Hall A" } : Attendee)]
          [.checkIn "TKT-1" "EVT-2024-001" "Hall A" 5, .checkOut "TKT-1" "EVT-2024-001" 9,
            .bulkCheckIn "EVT-2024-001" 12]) :=
  ⟨by decide, checkin_status_machine _ (by decide) _⟩

/-- Helper: summing the per-location counts over the distinct locations of
a list of attendees recovers the length of the list. -/
theorem sum_location_counts (cs : List Attendee) :
    (((cs.map (·.location)).dedup).map (fun l => cs.countP (fun a => a.location == l))).sum
      = cs.length := by
  have h := List.sum_map_count_dedup_eq_length (cs.map (·.location))
  rw [List.length_map] at h
  rw [← h]
  apply congrArg List.sum
  apply List.map_congr_left
  intro x _
  rw [List.count_eq_countP, List.countP_map]
  rfl

/-- C2: after any sequence of CheckInService operations, the zone answer is
internally consistent — the per-zone counts sum to `totalCheckedIn`, and
`totalCheckedIn` is the number of the event's attendees whose status is
`checked_in`. -/
theorem zone_aggregation_invariant (st : List Attendee) (ops : List CheckInOp) (eid : String) :
    (((zoneStats (ops.foldl applyOp st) eid).zones.map Prod.snd).sum
        = (zoneStats (ops.foldl applyOp st) eid).totalCheckedIn) ∧
      (zoneStats (ops.foldl applyOp st) eid).totalCheckedIn
        = ((ops.foldl applyOp st).filter
            (fun a => decide (a.eventId = eid ∧ a.status = .checked_in))).length := by
  refine ⟨?_, rfl⟩
  simp only [zoneStats, List.map_map]
  exact sum_location_counts (checkedInAttendees (ops.foldl applyOp st) eid)

end Echoplex
